import Mathlib

/-!
Shallow embedding of the remote-data synchronization core of the
challenge-frontend dashboard (source: `src/apps/scoreboard_app.rs`,
`src/apps/challenge_info.rs`).

The embedding models:
* the data types (`Score`, `FilterOption`, `FetchResponse`, the app state);
* the HTTP-status → outcome mapping computed inside the spawned fetch task;
* the per-render-pass step (`frame`), in the exact order the source runs it:
  promise deliveries, `check_for_reload`, `fetch`, widget interactions,
  `check_fetch_promise` and result handling, `check_refresh_promise`;
* the score filter/sort pipeline applied by `table_ui`.

Asynchronous completion is modelled by an explicit `Promise` status plus a
per-frame environment input saying which in-flight promise resolves, with
which value (a promise spawned during a frame cannot resolve within that
same frame on the single-threaded scheduler).  Fetch spawns are recorded in
an event trace so that theorems can count them.
-/

/-- Modelled from the spec: the challenge identifier enum (`Challenges`, in
`helpers`, not under `src/`) — "enum of known challenges, including a 'none'
sentinel".  Two known challenges suffice for every claim. -/
inductive Challenges where
  | None
  | A
  | B
deriving DecidableEq, Repr

/-- Modelled from the spec: the list of challenges offered by the selection
widgets (`Challenges::iter()`); the `None` sentinel is the forced-stale
marker of the challenge-info panel, not a selectable challenge. -/
def Challenges.iter : List Challenges := [Challenges.A, Challenges.B]

/-- Modelled from the spec: the default challenge (`Challenges::default()`). -/
def Challenges.defaultChallenge : Challenges := Challenges.A

/-- One leaderboard entry (`scoreboard_db::Score` as described by the spec
data model and §6: name, language, execution time in nanoseconds,
submitted-binary identifier). -/
structure Score where
  name : String
  language : String
  time_ns : Nat
  command : String
deriving DecidableEq, Repr

/-- The `FilterOption` enum from `scoreboard_app.rs`. -/
inductive FilterOption where
  | All
  | UniquePlayers
  | UniqueLanguage
deriving DecidableEq, Repr

/-- The `FetchResponse` enum from `scoreboard_app.rs`. -/
inductive FetchResponse where
  | Success (scores : List Score)
  | Failure (text : String)
  | FailAuth
deriving DecidableEq, Repr

/-- Modelled from the spec: `refresh::RefreshResponse` (in `helpers`, not
under `src/`) — "{status: string, ...}"; only the `status` field is read by
the coordinator. -/
structure RefreshResponse where
  status : String
deriving DecidableEq, Repr

/-- The body of the spawned primary-fetch task in `fetch`
(`scoreboard_app.rs` lines 87–105): the match on `response.status()`.
`text` is the result of `response.text()`; `decode` stands for
`serde_json::from_str::<Vec<Score>>`.  A `none` result models a panic
(`unwrap` on a failed value): status 200 unwraps both the text and the
decode result, and the catch-all branch unwraps the text; status 401
returns `FailAuth` regardless of the body. -/
def fetchResult (decode : String → Option (List Score))
    (status : Nat) (text : Except String String) : Option FetchResponse :=
  if status = 200 then
    match text with
    | Except.ok t =>
      match decode t with
      | some scores => some (FetchResponse.Success scores)
      | none => none
    | Except.error _ => none
  else if status = 401 then
    some FetchResponse.FailAuth
  else
    match text with
    | Except.ok t => some (FetchResponse.Failure t)
    | Except.error _ => none

/-- Modelled from the spec: the sort-column enum of `scoreboard_db`
(`SortColumn`) — "one of a fixed enumerated set, default `time`"; only
`time` is ever selected by this app. -/
inductive SortColumn where
  | time
deriving DecidableEq, Repr

/-- Modelled from the spec: `SortColumn::from_str`; `"time"` is the only
column name this app uses. -/
def SortColumn.from_str (s : String) : Option SortColumn :=
  if s = "time" then some SortColumn.time else none

/-- Comparison used by the stable ascending sort for a column. -/
def SortColumn.le : SortColumn → Score → Score → Bool
  | SortColumn.time, a, b => a.time_ns ≤ b.time_ns

/-- Stable insertion into a sorted list: the inserted element is original-
earlier than every element already present, so it goes before the first
element it is `le` to. -/
def insertScore (le : Score → Score → Bool) (x : Score) :
    List Score → List Score
  | [] => [x]
  | y :: ys =>
    if le x y then x :: y :: ys else y :: insertScore le x ys

/-- Modelled from the spec: stable ascending sort by the selected column
(`ScoreBoardFilter::Sort` in `scoreboard_db`); "ties broken by original
relative order". -/
def sortScores (col : SortColumn) : List Score → List Score
  | [] => []
  | x :: xs => insertScore col.le x (sortScores col xs)

/-- Dedup pass keeping, for each distinct key, the first occurrence. -/
def dedupByAux (key : Score → String) (seen : List String) :
    List Score → List Score
  | [] => []
  | x :: xs =>
    if seen.contains (key x) then dedupByAux key seen xs
    else x :: dedupByAux key (key x :: seen) xs

/-- Modelled from the spec: the dedup filter of `scoreboard_db`
(`ScoreBoardFilter::UniquePlayers`), generalized over the key field —
"retains, for each distinct key, exactly one entry: the first occurrence
after sorting". -/
def dedupBy (key : Score → String) (l : List Score) : List Score :=
  dedupByAux key [] l

/-- Modelled from the spec: `ScoreBoard::new(scores).filter(filters).scores()`
with an optional dedup filter and a sort filter appended — the collection is
sorted by the column, then the dedup filter keeps the first occurrence per
key. -/
def scoreboardFilter (dedupKey : Option (Score → String))
    (col : SortColumn) (scores : List Score) : List Score :=
  let sorted := sortScores col scores
  match dedupKey with
  | none => sorted
  | some k => dedupBy k sorted

/-- The dedup key `table_ui` selects for each filter option
(`scoreboard_app.rs` lines 283–291).  NOTE: the source appends
`ScoreBoardFilter::UniquePlayers` in the `UniqueLanguage` branch too, so
both unique modes dedup by the player-name field. -/
def scoreFilterKey : FilterOption → Option (Score → String)
  | FilterOption.All => none
  | FilterOption.UniquePlayers => some Score.name
  | FilterOption.UniqueLanguage => some Score.name

/-- The row collection `table_ui` renders from a score list, given the
active filter option and sort-column string; `none` models the
`expect("Invalid Cloumn")` panic on an unparsable column name. -/
def tableScores (filter : FilterOption) (sortColumn : String)
    (scores : List Score) : Option (List Score) :=
  match SortColumn.from_str sortColumn with
  | none => none
  | some col => some (scoreboardFilter (scoreFilterKey filter) col scores)

/-- Equality on `Except` results is decidable componentwise. -/
instance {ε α : Type} [DecidableEq ε] [DecidableEq α] :
    DecidableEq (Except ε α) := fun x y =>
  match x, y with
  | Except.ok a, Except.ok b =>
    if h : a = b then isTrue (by rw [h])
    else isFalse (by intro hc; cases hc; exact h rfl)
  | Except.ok _, Except.error _ => isFalse (by intro hc; cases hc)
  | Except.error _, Except.ok _ => isFalse (by intro hc; cases hc)
  | Except.error e, Except.error f =>
    if h : e = f then isTrue (by rw [h])
    else isFalse (by intro hc; cases hc; exact h rfl)

/-- The completion status of a spawned one-shot task (`poll_promise`). -/
inductive Promise (α : Type) where
  | pending
  | ready (a : α)
deriving DecidableEq, Repr

/-- Observable spawn events of one render pass: a primary score fetch being
spawned by `fetch` (recording the challenge baked into the request URL), or
a token-refresh fetch being spawned by `check_fetch_promise`. -/
inductive Event where
  | spawnPrimary (c : Challenges)
  | spawnRefresh
deriving DecidableEq, Repr

/-- The state of `ScoreBoardApp` (`scoreboard_app.rs` lines 24–46).  The
primary promise is paired with the challenge in the request URL
(`format!("{}api/game/scores/{}", self.url, self.challenge)`). -/
structure ScoreBoardApp where
  challenge : Challenges
  filter : FilterOption
  sort_column : String
  active_challenge : Challenges
  active_filter : FilterOption
  active_sort_column : String
  scores : Option (List Score)
  promise : Option (Challenges × Promise FetchResponse)
  token_refresh_promise : Option (Promise (Except String RefreshResponse))
  refresh_token : Bool
  refresh : Bool
deriving DecidableEq, Repr

/-- The `Default for ScoreBoardApp` impl (`scoreboard_app.rs` lines 48–68); note
`refresh: true`, so the first render pass fetches. -/
def ScoreBoardApp.default : ScoreBoardApp where
  challenge := Challenges.defaultChallenge
  filter := FilterOption.All
  sort_column := "time"
  active_challenge := Challenges.defaultChallenge
  active_filter := FilterOption.All
  active_sort_column := "time"
  scores := none
  promise := none
  token_refresh_promise := none
  refresh_token := false
  refresh := true

/-- Function `ScoreBoardApp::fetch` (lines 71–110): a no-op unless `refresh` is set;
otherwise clears `refresh` and `scores` and spawns the request task, whose
URL names the currently selected challenge. -/
def ScoreBoardApp.fetch (s : ScoreBoardApp) : ScoreBoardApp × List Event :=
  if s.refresh then
    ({ s with refresh := false, scores := none,
              promise := some (s.challenge, Promise.pending) },
     [Event.spawnPrimary s.challenge])
  else (s, [])

/-- Function `ScoreBoardApp::check_for_reload` (lines 112–122): field-by-field
comparison of the selected and active parameters; on any difference the
selected values are copied into the active ones and `refresh` is set. -/
def check_for_reload (s : ScoreBoardApp) : ScoreBoardApp :=
  if s.active_challenge ≠ s.challenge ∨ s.active_filter ≠ s.filter
      ∨ s.active_sort_column ≠ s.sort_column then
    { s with active_challenge := s.challenge, active_filter := s.filter,
             active_sort_column := s.sort_column, refresh := true }
  else s

/-- Function `ScoreBoardApp::check_fetch_promise` (lines 124–137): non-blocking poll
of the primary promise.  If it is ready, a `FailAuth` result sets
`refresh_token` and spawns the token-refresh fetch
(`refresh::submit_refresh`); the result is returned and the handle is
discarded.  Otherwise returns `none` and changes nothing. -/
def check_fetch_promise (s : ScoreBoardApp) :
    ScoreBoardApp × Option FetchResponse × List Event :=
  match s.promise with
  | some (_, Promise.ready r) =>
    match r with
    | FetchResponse.FailAuth =>
      ({ s with refresh_token := true,
                token_refresh_promise := some Promise.pending,
                promise := none },
       some r, [Event.spawnRefresh])
    | _ => ({ s with promise := none }, some r, [])
  | _ => (s, none, [])

/-- Function `ScoreBoardApp::check_refresh_promise` (lines 139–154): non-blocking
poll of the token-refresh promise.  When ready: an `Ok` result whose
`status` is `"success"` sets `refresh`; any other result only logs.  In
both cases `refresh_token` is cleared and the handle discarded. -/
def check_refresh_promise (s : ScoreBoardApp) : ScoreBoardApp :=
  match s.token_refresh_promise with
  | some (Promise.ready r) =>
    let s1 := match r with
      | Except.ok rr =>
        if rr.status = "success" then { s with refresh := true } else s
      | Except.error _ => s
    { s1 with refresh_token := false, token_refresh_promise := none }
  | _ => s

/-- The environment of one render pass: widget interactions during `ui`
(challenge selection, filter radio, the Refresh button) and asynchronous
completions delivered by the scheduler between frames. -/
structure FrameInput where
  newChallenge : Option Challenges
  newFilter : Option FilterOption
  refreshClicked : Bool
  primaryDone : Option FetchResponse
  refreshDone : Option (Except String RefreshResponse)
deriving Repr

/-- A render pass with no widget interaction and no completion. -/
def FrameInput.quiet : FrameInput :=
  { newChallenge := none, newFilter := none, refreshClicked := false,
    primaryDone := none, refreshDone := none }

/-- Deliver the frame's asynchronous completions: an in-flight promise
whose result arrived becomes ready.  Runs before the render pass polls
(completions happen on the microtask queue between frames). -/
def deliver (inp : FrameInput) (s : ScoreBoardApp) : ScoreBoardApp :=
  let s1 := match s.promise, inp.primaryDone with
    | some (c, Promise.pending), some r =>
      { s with promise := some (c, Promise.ready r) }
    | _, _ => s
  match s1.token_refresh_promise, inp.refreshDone with
  | some Promise.pending, some r =>
    { s1 with token_refresh_promise := some (Promise.ready r) }
  | _, _ => s1

/-- The widget interactions of `ui` (lines 182–228): the challenge combo
box and filter radios write the selected values; the Refresh button sets
`refresh` (lines 216–218).  These run after `fetch` and before `table_ui`
within the same render pass. -/
def applyUser (inp : FrameInput) (s : ScoreBoardApp) : ScoreBoardApp :=
  let s1 := match inp.newChallenge with
    | some c => { s with challenge := c }
    | none => s
  let s2 := match inp.newFilter with
    | some f => { s1 with filter := f }
    | none => s1
  if inp.refreshClicked then { s2 with refresh := true } else s2

/-- Handling in `table_ui`'s handling of a consumed fetch result (lines 235–247):
`Success` stores the scores; `Failure` and `FailAuth` only display text. -/
def applyFetchResult (r : Option FetchResponse) (s : ScoreBoardApp) :
    ScoreBoardApp :=
  match r with
  | some (FetchResponse.Success sc) => { s with scores := some sc }
  | _ => s

/-- One full render pass of the score board, in source order:
`show` runs `check_for_reload` then `fetch` (lines 162–164), `ui` processes
the side-panel widgets, and `table_ui` consumes the fetch promise, applies
its result, and polls the refresh promise (lines 235–248). -/
def frame (inp : FrameInput) (s : ScoreBoardApp) :
    ScoreBoardApp × List Event :=
  let s0 := deliver inp s
  let s1 := check_for_reload s0
  let (s2, e1) := s1.fetch
  let s3 := applyUser inp s2
  let (s4, r, e2) := check_fetch_promise s3
  let s5 := applyFetchResult r s4
  let s6 := check_refresh_promise s5
  (s6, e1 ++ e2)

/-- Run a sequence of render passes, collecting all spawn events. -/
def runFrames (s : ScoreBoardApp) : List FrameInput →
    ScoreBoardApp × List Event
  | [] => (s, [])
  | inp :: rest =>
    let (s1, evs) := frame inp s
    let (s2, evs2) := runFrames s1 rest
    (s2, evs ++ evs2)

/-- The rows the score table renders (`table_ui` lines 280–322): nothing
when `scores` is `None`, otherwise the filter/sort pipeline applied to the
stored collection; `none` models the sort-column parse panic. -/
def tableRows (s : ScoreBoardApp) : Option (List Score) :=
  match s.scores with
  | none => some []
  | some sc => tableScores s.filter s.sort_column sc

/-- The state of `ChallengeInfoApp` (`challenge_info.rs` lines 11–19); the
fetcher promise resolves to the instructions text. -/
structure ChallengeInfoApp where
  selected_challenge : Challenges
  active_challenge : Challenges
  info_fetcher : Option (Promise String)
deriving DecidableEq, Repr

/-- The `Default for ChallengeInfoApp` impl (`challenge_info.rs` lines
21–30): the active challenge starts at the `None` sentinel. -/
def ChallengeInfoApp.default : ChallengeInfoApp where
  selected_challenge := Challenges.defaultChallenge
  active_challenge := Challenges.None
  info_fetcher := none

/-- Function `ChallengeInfoApp::fetch` (`challenge_info.rs` lines 33–40): a
no-op when the active challenge equals the selection; otherwise records the
selection as active and spawns the instruction fetch
(`self.selected_challenge.fetcher(...)`, modelled from the spec as the same
spawn-and-poll primitive over a text payload). -/
def ChallengeInfoApp.fetch (s : ChallengeInfoApp) : ChallengeInfoApp :=
  if s.active_challenge = s.selected_challenge then s
  else { s with active_challenge := s.selected_challenge,
                info_fetcher := some Promise.pending }

/-- The Refresh button of the challenge-info panel (`challenge_info.rs`
lines 89–91): resets the active challenge to the `None` sentinel so the
next render pass refetches. -/
def ChallengeInfoApp.refreshClick (s : ChallengeInfoApp) : ChallengeInfoApp :=
  { s with active_challenge := Challenges.None }

/-- Helper: a state whose quiet render pass is a fixpoint with no spawn
events stays there through any number of quiet render passes. -/
theorem runFrames_quiet_fixpoint (s : ScoreBoardApp)
    (h : frame FrameInput.quiet s = (s, [])) :
    ∀ n : Nat, runFrames s (List.replicate n FrameInput.quiet) = (s, []) := by
  intro n
  induction n with
  | zero => rfl
  | succ k ih => simp [List.replicate_succ, runFrames, h, ih]

/-- The failing input of claim C1: a status-200 response whose body fails
to decode as a score collection (`decode` is the embedded
`serde_json::from_str`, here at a body it rejects). -/
def c1BadDecode : String → Option (List Score) := fun _ => none

/-- C1: the claim says a body-decode failure for a 200 response propagates
as a `Failure` outcome; the source instead calls `.unwrap()` on the decode
result (`scoreboard_app.rs` line 89), so the attempt panics — the outcome
is no `FetchResponse` at all (modelled as `none`), in particular not a
`Failure`. -/
theorem c1_decode_failure_is_panic_not_failure :
    fetchResult c1BadDecode 200 (Except.ok "not a score list") = none := rfl

/-- The failing input of claim C2: two entries with the same player name
and two distinct language labels, already in ascending time order. -/
def c2Input : List Score :=
  [{ name := "alice", language := "rust", time_ns := 5, command := "a.bin" },
   { name := "alice", language := "c", time_ns := 7, command := "b.bin" }]

/-- C2: the claim says the unique-language filter mode dedups by the
language field; the source's `UniqueLanguage` branch appends
`ScoreBoardFilter::UniquePlayers` (`scoreboard_app.rs` line 289), so it
dedups by player name: on two same-player entries with distinct languages
it keeps only the first, while dedup by language (the intended semantics)
keeps both. -/
theorem c2_unique_language_dedups_by_player :
    tableScores FilterOption.UniqueLanguage "time" c2Input
      = some [{ name := "alice", language := "rust", time_ns := 5,
                command := "a.bin" }] ∧
    scoreboardFilter (some Score.language) SortColumn.time c2Input
      = c2Input := by
  exact ⟨rfl, rfl⟩

/-- The render-pass inputs reaching a state where a token refresh is
pending and the selected filter differs from the active one: the default
state's first pass spawns the primary fetch; the second pass delivers a
401 (`FailAuth`) — spawning the token refresh — while the user selects a
different filter mode. -/
def c5Trace : List FrameInput :=
  [FrameInput.quiet,
   { FrameInput.quiet with primaryDone := some FetchResponse.FailAuth,
                           newFilter := some FilterOption.UniquePlayers }]

/-- C5 counterexample: from the default state, after `c5Trace` the token
refresh is still pending, yet the next quiet render pass spawns a new
primary fetch — the claim that no primary fetch is spawned while a refresh
is pending is false. -/
theorem c5_counterexample_spawn_during_refresh :
    (runFrames ScoreBoardApp.default c5Trace).1.token_refresh_promise
      = some Promise.pending ∧
    (frame FrameInput.quiet (runFrames ScoreBoardApp.default c5Trace).1).2
      = [Event.spawnPrimary Challenges.A] := by decide

/-- C5 (amended): while a token refresh is pending, a parameter change is
not latched: `check_for_reload` sets the stale flag and `fetch` spawns a
new primary fetch on that same render pass, with the refresh still
pending afterwards (`fetch` tests only `self.refresh`,
`scoreboard_app.rs` line 72). -/
theorem c5_amended_param_change_spawns_during_refresh
    (s : ScoreBoardApp)
    (hrt : s.token_refresh_promise = some Promise.pending)
    (hp : s.promise = none)
    (hdiff : s.active_challenge ≠ s.challenge ∨ s.active_filter ≠ s.filter
        ∨ s.active_sort_column ≠ s.sort_column) :
    (frame FrameInput.quiet s).2 = [Event.spawnPrimary s.challenge] ∧
    (frame FrameInput.quiet s).1.token_refresh_promise
      = some Promise.pending := by
  obtain ⟨ch, fi, so, ac, af, aso, sc, pr, trp, rt, rf⟩ := s
  simp only at hrt hp hdiff
  subst hrt hp
  simp [frame, deliver, check_for_reload, ScoreBoardApp.fetch, applyUser,
        check_fetch_promise, applyFetchResult, check_refresh_promise,
        FrameInput.quiet, hdiff]

/-- Witness for the amended C5 at a concrete pending-refresh state with a
changed filter selection. -/
theorem c5_amended_witness :
    (frame FrameInput.quiet
      { ScoreBoardApp.default with
          refresh := false,
          token_refresh_promise := some Promise.pending,
          filter := FilterOption.UniquePlayers }).2
      = [Event.spawnPrimary Challenges.A] ∧
    (frame FrameInput.quiet
      { ScoreBoardApp.default with
          refresh := false,
          token_refresh_promise := some Promise.pending,
          filter := FilterOption.UniquePlayers }).1.token_refresh_promise
      = some Promise.pending := by
  exact c5_amended_param_change_spawns_during_refresh _ rfl rfl
    (Or.inr (Or.inl (by decide)))

/-- The render-pass inputs reaching a state with a pending token refresh
and a second primary fetch in flight: `c5Trace` followed by the quiet pass
that spawns the second primary fetch. -/
def c6Trace : List FrameInput := c5Trace ++ [FrameInput.quiet]

/-- C6 counterexample: from the default state, after `c6Trace` a token
refresh is pending, yet delivering a second 401 on the next render pass
initiates a second refresh fetch — the claim that a refresh is never
initiated while one is already in flight is false. -/
theorem c6_counterexample_second_refresh_while_pending :
    (runFrames ScoreBoardApp.default c6Trace).1.token_refresh_promise
      = some Promise.pending ∧
    (frame { FrameInput.quiet with primaryDone := some FetchResponse.FailAuth }
        (runFrames ScoreBoardApp.default c6Trace).1).2
      = [Event.spawnRefresh] := by decide

/-- C6 (amended): every consumed `FailAuth` (401) outcome initiates exactly
one refresh attempt, but `check_fetch_promise` never checks for an
in-flight refresh: a pending refresh handle is overwritten by the new one
(`scoreboard_app.rs` lines 127–130), so a second refresh can be initiated
while one is in flight. -/
theorem c6_amended_failauth_always_spawns_refresh
    (s : ScoreBoardApp) (c : Challenges)
    (hp : s.promise = some (c, Promise.ready FetchResponse.FailAuth)) :
    check_fetch_promise s =
      ({ s with promise := none, refresh_token := true,
                token_refresh_promise := some Promise.pending },
       some FetchResponse.FailAuth, [Event.spawnRefresh]) := by
  simp [check_fetch_promise, hp]

/-- Witness for the amended C6: a 401 consumed while a refresh is already
pending still initiates exactly one new refresh. -/
theorem c6_amended_witness :
    check_fetch_promise
      { ScoreBoardApp.default with
          promise := some (Challenges.A, Promise.ready FetchResponse.FailAuth),
          token_refresh_promise := some Promise.pending } =
      ({ ScoreBoardApp.default with
           promise := none,
           refresh_token := true,
           token_refresh_promise := some Promise.pending },
       some FetchResponse.FailAuth, [Event.spawnRefresh]) := by
  exact c6_amended_failauth_always_spawns_refresh _ Challenges.A rfl

/-- C3: in a pending-refresh state with the selection matching the active
parameters, delivering a refresh outcome `Ok` with status `"success"` sets
the stale flag and returns to Normal (`refresh_token` cleared, handle
discarded); the next render pass spawns exactly one primary fetch, whose
URL names the active challenge, and the pass after that spawns nothing. -/
theorem c3_refresh_success_triggers_one_refetch
    (s : ScoreBoardApp)
    (hrt : s.token_refresh_promise = some Promise.pending)
    (hp : s.promise = none)
    (hr : s.refresh = false)
    (hc : s.challenge = s.active_challenge)
    (hf : s.filter = s.active_filter)
    (hs : s.sort_column = s.active_sort_column) :
    (frame { FrameInput.quiet with
        refreshDone := some (Except.ok { status := "success" }) } s).1.refresh
      = true ∧
    (frame { FrameInput.quiet with
        refreshDone := some (Except.ok { status := "success" }) } s).1.refresh_token
      = false ∧
    (frame { FrameInput.quiet with
        refreshDone := some (Except.ok { status := "success" }) } s).1.token_refresh_promise
      = none ∧
    (frame FrameInput.quiet
      (frame { FrameInput.quiet with
        refreshDone := some (Except.ok { status := "success" }) } s).1).2
      = [Event.spawnPrimary s.active_challenge] ∧
    (frame FrameInput.quiet
      (frame { FrameInput.quiet with
        refreshDone := some (Except.ok { status := "success" }) } s).1).1.refresh
      = false ∧
    (frame FrameInput.quiet
      (frame FrameInput.quiet
        (frame { FrameInput.quiet with
          refreshDone := some (Except.ok { status := "success" }) } s).1).1).2
      = [] := by
  obtain ⟨ch, fi, so, ac, af, aso, sc, pr, trp, rt, rf⟩ := s
  simp only at hrt hp hr hc hf hs
  subst hrt hp hr hc hf hs
  simp [frame, deliver, check_for_reload, ScoreBoardApp.fetch, applyUser,
        check_fetch_promise, applyFetchResult, check_refresh_promise,
        FrameInput.quiet]

/-- Witness for C3 at the concrete pending-refresh quiet state. -/
theorem c3_witness :
    (frame { FrameInput.quiet with
        refreshDone := some (Except.ok { status := "success" }) }
      { ScoreBoardApp.default with
          refresh := false,
          token_refresh_promise := some Promise.pending }).1.refresh
      = true ∧
    (frame FrameInput.quiet
      (frame { FrameInput.quiet with
          refreshDone := some (Except.ok { status := "success" }) }
        { ScoreBoardApp.default with
            refresh := false,
            token_refresh_promise := some Promise.pending }).1).2
      = [Event.spawnPrimary Challenges.A] := by
  have h := c3_refresh_success_triggers_one_refetch
    { ScoreBoardApp.default with
        refresh := false,
        token_refresh_promise := some Promise.pending }
    rfl rfl rfl rfl rfl rfl
  exact ⟨h.1, h.2.2.2.1⟩

/-- C4: in a pending-refresh state with the selection matching the active
parameters, delivering a refresh outcome that is an error, or `Ok` with a
status other than `"success"`, returns the coordinator to Normal
(`refresh_token` cleared, handle discarded) without setting the stale
flag, and any number of further quiet render passes leave the state fixed
with zero fetch attempts. -/
theorem c4_refresh_failure_no_retry
    (s : ScoreBoardApp) (r : Except String RefreshResponse)
    (hnot : ∀ rr : RefreshResponse, r = Except.ok rr → rr.status ≠ "success")
    (hrt : s.token_refresh_promise = some Promise.pending)
    (hp : s.promise = none)
    (hr : s.refresh = false)
    (hc : s.challenge = s.active_challenge)
    (hf : s.filter = s.active_filter)
    (hs : s.sort_column = s.active_sort_column) :
    frame { FrameInput.quiet with refreshDone := some r } s
      = ({ s with token_refresh_promise := none, refresh_token := false },
         []) ∧
    ∀ n : Nat,
      runFrames { s with token_refresh_promise := none, refresh_token := false }
          (List.replicate n FrameInput.quiet)
        = ({ s with token_refresh_promise := none, refresh_token := false },
           []) := by
  obtain ⟨ch, fi, so, ac, af, aso, sc, pr, trp, rt, rf⟩ := s
  simp only at hrt hp hr hc hf hs
  subst hrt hp hr hc hf hs
  have hfix : frame FrameInput.quiet
      ({ challenge := ch, filter := fi, sort_column := so,
         active_challenge := ch, active_filter := fi,
         active_sort_column := so, scores := sc, promise := none,
         token_refresh_promise := none, refresh_token := false,
         refresh := false } : ScoreBoardApp)
      = ({ challenge := ch, filter := fi, sort_column := so,
           active_challenge := ch, active_filter := fi,
           active_sort_column := so, scores := sc, promise := none,
           token_refresh_promise := none, refresh_token := false,
           refresh := false }, []) := by
    simp [frame, deliver, check_for_reload, ScoreBoardApp.fetch, applyUser,
          check_fetch_promise, applyFetchResult, check_refresh_promise,
          FrameInput.quiet]
  refine ⟨?_, fun n => runFrames_quiet_fixpoint _ hfix n⟩
  cases r with
  | error e =>
    simp [frame, deliver, check_for_reload, ScoreBoardApp.fetch, applyUser,
          check_fetch_promise, applyFetchResult, check_refresh_promise,
          FrameInput.quiet]
  | ok rr =>
    have hne : rr.status ≠ "success" := hnot rr rfl
    simp [frame, deliver, check_for_reload, ScoreBoardApp.fetch, applyUser,
          check_fetch_promise, applyFetchResult, check_refresh_promise,
          FrameInput.quiet, hne]

/-- Witness for C4 at the concrete pending-refresh quiet state with a
refresh response whose status is not `"success"`. -/
theorem c4_witness :
    frame { FrameInput.quiet with
        refreshDone := some (Except.ok { status := "fail" }) }
      { ScoreBoardApp.default with
          refresh := false,
          token_refresh_promise := some Promise.pending }
      = ({ ScoreBoardApp.default with
             refresh := false,
             token_refresh_promise := none,
             refresh_token := false },
         []) := by
  have h := c4_refresh_failure_no_retry
    { ScoreBoardApp.default with
        refresh := false,
        token_refresh_promise := some Promise.pending }
    (Except.ok { status := "fail" })
    (by intro rr hrr; cases hrr; decide)
    rfl rfl rfl rfl rfl rfl
  exact h.1

/-- The selected and active query parameters differ in some field. -/
def paramsDiffer (s : ScoreBoardApp) : Prop :=
  s.active_challenge ≠ s.challenge ∨ s.active_filter ≠ s.filter
    ∨ s.active_sort_column ≠ s.sort_column

instance (s : ScoreBoardApp) : Decidable (paramsDiffer s) := by
  unfold paramsDiffer
  infer_instance

/-- C7: `check_for_reload` compares the selected and active parameters
field-by-field; when some field differs it copies the selected values into
the active ones and sets the stale flag, when none differs it changes
nothing, and running it a second time is always a no-op. -/
theorem c7_check_for_reload_spec (s : ScoreBoardApp) :
    (paramsDiffer s →
      check_for_reload s
        = { s with active_challenge := s.challenge,
                   active_filter := s.filter,
                   active_sort_column := s.sort_column,
                   refresh := true }) ∧
    (¬ paramsDiffer s → check_for_reload s = s) ∧
    check_for_reload (check_for_reload s) = check_for_reload s := by
  have h1 : paramsDiffer s →
      check_for_reload s
        = { s with active_challenge := s.challenge,
                   active_filter := s.filter,
                   active_sort_column := s.sort_column,
                   refresh := true } := by
    intro h
    unfold paramsDiffer at h
    simp only [check_for_reload]
    rw [if_pos h]
  have h2 : ¬ paramsDiffer s → check_for_reload s = s := by
    intro h
    unfold paramsDiffer at h
    simp only [check_for_reload]
    rw [if_neg h]
  refine ⟨h1, h2, ?_⟩
  by_cases h : paramsDiffer s
  · rw [h1 h]
    simp [check_for_reload]
  · rw [h2 h, h2 h]

/-- Witness for C7 at a concrete state whose selected challenge differs
from the active one. -/
theorem c7_witness :
    paramsDiffer { ScoreBoardApp.default with challenge := Challenges.B } ∧
    check_for_reload { ScoreBoardApp.default with challenge := Challenges.B }
      = { ScoreBoardApp.default with
            challenge := Challenges.B,
            active_challenge := Challenges.B,
            refresh := true } := by
  refine ⟨by decide, ?_⟩
  exact (c7_check_for_reload_spec
    { ScoreBoardApp.default with challenge := Challenges.B }).1 (by decide)

/-- C8: a click on the score board's Refresh button sets the stale flag
unconditionally, so with the selection unchanged from the active
parameters the next render pass spawns a primary fetch; and a click on the
challenge-info panel's Refresh button resets the active challenge to the
`None` sentinel, so its next `fetch` call respawns the instruction fetch
for any selectable challenge. -/
theorem c8_manual_refresh_forces_fetch
    (s : ScoreBoardApp) (ci : ChallengeInfoApp)
    (hc : s.challenge = s.active_challenge)
    (hf : s.filter = s.active_filter)
    (hs : s.sort_column = s.active_sort_column)
    (hr : s.refresh = false)
    (hp : s.promise = none)
    (ht : s.token_refresh_promise = none)
    (hci : ci.selected_challenge ∈ Challenges.iter) :
    (frame { FrameInput.quiet with refreshClicked := true } s).2 = [] ∧
    (frame { FrameInput.quiet with refreshClicked := true } s).1.refresh
      = true ∧
    (frame FrameInput.quiet
      (frame { FrameInput.quiet with refreshClicked := true } s).1).2
      = [Event.spawnPrimary s.challenge] ∧
    ci.refreshClick.fetch.active_challenge = ci.selected_challenge ∧
    ci.refreshClick.fetch.info_fetcher = some Promise.pending := by
  have hci2 : ci.selected_challenge ≠ Challenges.None := by
    simp only [Challenges.iter, List.mem_cons, List.mem_singleton] at hci
    rcases hci with h | h | h
    · rw [h]; intro hcon; cases hcon
    · rw [h]; intro hcon; cases hcon
    · cases h
  obtain ⟨ch, fi, so, ac, af, aso, sc, pr, trp, rt, rf⟩ := s
  obtain ⟨cis, cia, cif⟩ := ci
  simp only at hc hf hs hr hp ht hci2
  subst hc hf hs hr hp ht
  refine ⟨?_, ?_, ?_, ?_, ?_⟩ <;>
    simp [frame, deliver, check_for_reload, ScoreBoardApp.fetch, applyUser,
          check_fetch_promise, applyFetchResult, check_refresh_promise,
          FrameInput.quiet, ChallengeInfoApp.refreshClick,
          ChallengeInfoApp.fetch, hci2, Ne.symm hci2]

/-- Witness for C8 at the default states (with the score board's initial
fetch already consumed). -/
theorem c8_witness :
    (frame { FrameInput.quiet with refreshClicked := true }
      { ScoreBoardApp.default with refresh := false }).1.refresh = true ∧
    (frame FrameInput.quiet
      (frame { FrameInput.quiet with refreshClicked := true }
        { ScoreBoardApp.default with refresh := false }).1).2
      = [Event.spawnPrimary Challenges.A] ∧
    ChallengeInfoApp.default.refreshClick.fetch.info_fetcher
      = some Promise.pending := by
  have h := c8_manual_refresh_forces_fetch
    { ScoreBoardApp.default with refresh := false }
    ChallengeInfoApp.default
    rfl rfl rfl rfl rfl rfl (by decide)
  exact ⟨h.2.1, h.2.2.1, h.2.2.2.2⟩

/-- C9: polling the primary fetch handle (`check_fetch_promise`) returns
no outcome and changes nothing while the handle is absent or the request
is in flight; a ready outcome is returned exactly once, the handle is
discarded, and polling again afterwards returns no outcome until a new
fetch is spawned. -/
theorem c9_poll_consumes_outcome_once
    (s : ScoreBoardApp) (c : Challenges) (r : FetchResponse) :
    (s.promise = none → check_fetch_promise s = (s, none, [])) ∧
    (s.promise = some (c, Promise.pending) →
      check_fetch_promise s = (s, none, [])) ∧
    (s.promise = some (c, Promise.ready r) →
      (check_fetch_promise s).2.1 = some r ∧
      (check_fetch_promise s).1.promise = none ∧
      check_fetch_promise (check_fetch_promise s).1
        = ((check_fetch_promise s).1, none, [])) := by
  refine ⟨?_, ?_, ?_⟩ <;> intro hp
  · simp [check_fetch_promise, hp]
  · simp [check_fetch_promise, hp]
  · cases r <;> simp [check_fetch_promise, hp]

/-- Witness for C9 at a concrete handle that is ready with a success
outcome. -/
theorem c9_witness :
    (check_fetch_promise
      { ScoreBoardApp.default with
          promise := some (Challenges.A,
            Promise.ready (FetchResponse.Success [])) }).2.1
      = some (FetchResponse.Success []) ∧
    (check_fetch_promise
      { ScoreBoardApp.default with
          promise := some (Challenges.A,
            Promise.ready (FetchResponse.Success [])) }).1.promise
      = none := by
  have h := (c9_poll_consumes_outcome_once
    { ScoreBoardApp.default with
        promise := some (Challenges.A,
          Promise.ready (FetchResponse.Success [])) }
    Challenges.A (FetchResponse.Success [])).2.2 rfl
  exact ⟨h.1, h.2.1⟩

/-- C10: when the stale flag is set, `fetch` clears the stored score
collection before spawning the request; and when the spawned request
completes with a `Failure` outcome, the previously fetched scores are not
restored — the stored collection stays empty and the table renders no
rows. -/
theorem c10_fetch_clears_scores_failure_keeps_none
    (s : ScoreBoardApp) (c : Challenges) (msg : String) :
    (s.refresh = true →
      s.fetch = ({ s with refresh := false, scores := none,
                          promise := some (s.challenge, Promise.pending) },
                 [Event.spawnPrimary s.challenge])) ∧
    (s.scores = none → s.promise = some (c, Promise.pending) →
      s.refresh = false → s.challenge = s.active_challenge →
      s.filter = s.active_filter → s.sort_column = s.active_sort_column →
      s.token_refresh_promise = none →
      (frame { FrameInput.quiet with
          primaryDone := some (FetchResponse.Failure msg) } s).1.scores
        = none ∧
      tableRows (frame { FrameInput.quiet with
          primaryDone := some (FetchResponse.Failure msg) } s).1
        = some []) := by
  constructor
  · intro hr
    simp [ScoreBoardApp.fetch, hr]
  · intro hsc hp hr hc hf hs ht
    obtain ⟨ch, fi, so, ac, af, aso, sc, pr, trp, rt, rf⟩ := s
    simp only at hsc hp hr hc hf hs ht
    subst hsc hp hr hc hf hs ht
    simp [frame, deliver, check_for_reload, ScoreBoardApp.fetch, applyUser,
          check_fetch_promise, applyFetchResult, check_refresh_promise,
          FrameInput.quiet, tableRows]

/-- Witness for C10: the default state (stale) has its scores cleared by
`fetch`, and a concrete in-flight state receiving a `Failure` outcome
keeps no scores and renders no rows. -/
theorem c10_witness :
    ScoreBoardApp.default.fetch
      = ({ ScoreBoardApp.default with
             refresh := false, scores := none,
             promise := some (Challenges.A, Promise.pending) },
         [Event.spawnPrimary Challenges.A]) ∧
    (frame { FrameInput.quiet with
        primaryDone := some (FetchResponse.Failure "boom") }
      { ScoreBoardApp.default with
          refresh := false,
          promise := some (Challenges.A, Promise.pending) }).1.scores
      = none := by
  constructor
  · exact (c10_fetch_clears_scores_failure_keeps_none
      ScoreBoardApp.default Challenges.A "boom").1 rfl
  · exact ((c10_fetch_clears_scores_failure_keeps_none
      { ScoreBoardApp.default with
          refresh := false,
          promise := some (Challenges.A, Promise.pending) }
      Challenges.A "boom").2 rfl rfl rfl rfl rfl rfl rfl).1
